import Mathlib

/-!
Shallow embedding of the spaced-repetition memory model and priority
scheduler of the vocab repository (`memory.mjs` and the scheduler module).
JavaScript `number` values are modelled as real numbers; a thrown
`Error` is modelled as `Option.none`.
-/

namespace Vocab

noncomputable section

/-- Milliseconds in a day (`MS_IN_DAY`). -/
def MS_IN_DAY : ℝ := 24 * 60 * 60 * 1000

/-- Base time for action: click, read, understand (`BASE_COGNITIVE_REACTION_TIME`). -/
def BASE_COGNITIVE_REACTION_TIME : ℝ := 250

/-- Additional time per character in the item (`CHAR_REACTION_TIME`). -/
def CHAR_REACTION_TIME : ℝ := 20

/-- Expected speed multiplier (`EXPECTED_SPEED_MULTIPLIER`). -/
def EXPECTED_SPEED_MULTIPLIER : ℝ := 15

/-- Weight of the speed score in answer quality (`ANSWER_SPEED_WEIGHT`). -/
def ANSWER_SPEED_WEIGHT : ℝ := 0.3

/-- Difficulty correction weight (`DIFFICULTY_CORRECTION_WEIGHT`). -/
def DIFFICULTY_CORRECTION_WEIGHT : ℝ := 0.1

/-- Minimum strength in days (`MIN_STRENGTH`). -/
def MIN_STRENGTH : ℝ := 1

/-- Default strength (`DEFAULT_STRENGTH = MIN_STRENGTH`). -/
def DEFAULT_STRENGTH : ℝ := MIN_STRENGTH

/-- Minimum difficulty (`MIN_DIFFICULTY`). -/
def MIN_DIFFICULTY : ℝ := 1

/-- Maximum difficulty (`MAX_DIFFICULTY`). -/
def MAX_DIFFICULTY : ℝ := 10

/-- Default difficulty (`DEFAULT_DIFFICULTY`). -/
def DEFAULT_DIFFICULTY : ℝ := 2

/-- Minimum answer quality (`MIN_ANSWER_QUALITY`). -/
def MIN_ANSWER_QUALITY : ℝ := 0

/-- Maximum answer quality (`MAX_ANSWER_QUALITY`). -/
def MAX_ANSWER_QUALITY : ℝ := 2

/-- Minimum speed score (`MIN_SPEED_SCORE`). -/
def MIN_SPEED_SCORE : ℝ := 0

/-- Minimum streak to start getting a bonus (`MIN_STREAK_THRESHOLD`). -/
def MIN_STREAK_THRESHOLD : ℝ := 1

/-- Weight of the streak bonus in answer quality (`STREAK_BONUS_WEIGHT`). -/
def STREAK_BONUS_WEIGHT : ℝ := 0.2

-- Answer score levels (`enum AnswerScore`).
namespace AnswerScore

/-- Perfect recall (`VERY_KNOW = 1.5`). -/
def VERY_KNOW : ℝ := 1.5

/-- Fully correct with no hint (`KNOW = 1`). -/
def KNOW : ℝ := 1

/-- Correct after one hint (`CLUE = 0.5`). -/
def CLUE : ℝ := 0.5

/-- Correct after two hints (`CLUES = 0.2`). -/
def CLUES : ℝ := 0.2

/-- Wrong answer (`NO = 0`). -/
def NO : ℝ := 0

end AnswerScore

/-- Clamp `x` to `[lo, hi]`; a `none` bound leaves that side unclamped
(`clamp({x, min, max})`: `result = x; if min defined, result = max(min, x);
if max defined, result = min(max, result)`). -/
def clamp (x : ℝ) (lo hi : Option ℝ) : ℝ :=
  match lo, hi with
  | some m, some M => min M (max m x)
  | some m, none => max m x
  | none, some M => min M x
  | none, none => x

/-- Sign of a number as JavaScript `Math.sign` computes it for non-NaN input. -/
def jsSign (x : ℝ) : ℝ :=
  if 0 < x then 1 else if x < 0 then -1 else 0

/-- Keep a denominator at least `eps` away from zero
(`safeDenom(d, eps = 1e-8) = |d| < eps ? Math.sign(d || 1) * eps : d`;
JavaScript `d || 1` is `1` when `d = 0` and `d` otherwise). -/
def safeDenom (d : ℝ) (eps : ℝ := 1e-8) : ℝ :=
  if |d| < eps then jsSign (if d = 0 then 1 else d) * eps else d

/-- Rescale `x` from the whole line into `(a, b)` through `tanh`
(`boundedRescaleTanh(x, k, a = -1, b = 1) = m + r*tanh(k*x)` with
`m = (a+b)/2`, `r = (b-a)/2`). -/
def boundedRescaleTanh (x k a b : ℝ) : ℝ :=
  (a + b) / 2 + (b - a) / 2 * Real.tanh (k * x)

/-- Speed score of an answer (`getSpeedScore`): 0 when the answer arrived
faster than the base reaction time, otherwise the positive part of
`expectedSpeedMultiplier*expectedTime/answerTime - 1` rescaled through
`tanh` with sensitivity 0.5. -/
def getSpeedScore (itemLength answerTime reactionTime charTime
    expectedSpeedMultiplier : ℝ) : ℝ :=
  if answerTime < reactionTime then 0
  else
    boundedRescaleTanh
      (clamp (expectedSpeedMultiplier * (reactionTime + charTime * itemLength) / answerTime - 1)
        (some MIN_SPEED_SCORE) none)
      0.5 (-1) 1

/-- Streak bonus (`getStreakBonus`): 0 below the threshold, otherwise the
excess over the threshold rescaled through `tanh` with sensitivity 0.4. -/
def getStreakBonus (currentStreak streakBonusThreshold : ℝ) : ℝ :=
  if currentStreak < streakBonusThreshold then 0
  else boundedRescaleTanh (currentStreak - streakBonusThreshold) 0.4 (-1) 1

/-- Answer quality (`getAnswerQuality`):
`clamp(answerScore + speedWeight*speedScore + bonusWeight*bonus, [0, 2])`. -/
def getAnswerQuality (answerScore speedScore speedWeight bonus
    bonusWeight : ℝ) : ℝ :=
  clamp (answerScore + speedWeight * speedScore + bonusWeight * bonus)
    (some MIN_ANSWER_QUALITY) (some MAX_ANSWER_QUALITY)

/-- Strength update (`getStrength`): forgetting penalty `0.3 * strength`
when the quality is 0, otherwise growth by
`answerQuality * daysSinceLastReview / currentDifficulty`; clamped to
`>= MIN_STRENGTH` in both branches. -/
def getStrength (answerQuality currentStrength currentDifficulty
    daysSinceLastReview : ℝ) : ℝ :=
  if answerQuality = 0 then
    clamp (currentStrength * 0.3) (some MIN_STRENGTH) none
  else
    clamp (currentStrength + answerQuality * (daysSinceLastReview / currentDifficulty))
      (some MIN_STRENGTH) none

/-- Difficulty update (`getDifficulty`):
`clamp(currentDifficulty - correctionWeight*(answerQuality - 1), [1, 10])`. -/
def getDifficulty (currentDifficulty answerQuality correctionWeight : ℝ) : ℝ :=
  clamp (currentDifficulty - correctionWeight * (answerQuality - 1))
    (some MIN_DIFFICULTY) (some MAX_DIFFICULTY)

/-- Forget probability (`getForgetProbability`):
`1 - exp(-(daysSinceLastReview * difficulty) / safeDenom(strength))`. -/
def getForgetProbability (strength difficulty daysSinceLastReview : ℝ) : ℝ :=
  1 - Real.exp (-(daysSinceLastReview * difficulty / safeDenom strength))

/-- Log-overdue signal (`getLogOverdueSignal`):
`log1p((daysSinceLastReview * difficulty) / safeDenom(strength))`. -/
def getLogOverdueSignal (strength difficulty daysSinceLastReview : ℝ) : ℝ :=
  Real.log (1 + daysSinceLastReview * difficulty / safeDenom strength)

/-- Parameter record of `getNewState`. -/
structure GetNewStateParams where
  answerScore : ℝ
  answerTime : ℝ
  itemLength : ℝ
  currentStrength : ℝ
  daysSinceLastReview : ℝ
  currentDifficulty : ℝ
  reactionTime : ℝ
  charTime : ℝ
  speedWeight : ℝ
  correctionWeight : ℝ
  expectedSpeedMultiplier : ℝ
  currentStreak : ℝ
  streakBonusThreshold : ℝ
  bonusWeight : ℝ

/-- Result record of `getNewState`. -/
structure NewState where
  newStrength : ℝ
  newDifficulty : ℝ
  newStreak : ℝ

/-- Strength after the cold-start coercion in `getNewState`
(`if (currentStrength <= 0) currentStrength = DEFAULT_STRENGTH`). -/
def coercedStrength (p : GetNewStateParams) : ℝ :=
  if p.currentStrength ≤ 0 then DEFAULT_STRENGTH else p.currentStrength

/-- Difficulty after the cold-start coercion in `getNewState`
(`if (currentDifficulty <= 0) currentDifficulty = DEFAULT_DIFFICULTY`). -/
def coercedDifficulty (p : GetNewStateParams) : ℝ :=
  if p.currentDifficulty ≤ 0 then DEFAULT_DIFFICULTY else p.currentDifficulty

/-- Condition of the same-day-repeat guard in `getNewState`
(`daysSinceLastReview <= 0.11 && (currentStrength != DEFAULT_STRENGTH ||
currentDifficulty != DEFAULT_DIFFICULTY)`, on the coerced values). -/
def sameDayGuard (p : GetNewStateParams) : Prop :=
  p.daysSinceLastReview ≤ 0.11 ∧
    (coercedStrength p ≠ DEFAULT_STRENGTH ∨ coercedDifficulty p ≠ DEFAULT_DIFFICULTY)

/-- Speed score binding of `getNewState`: speed plays a role only when the
answer is completely correct (`answerScore >= 1`). -/
def speedScoreOf (p : GetNewStateParams) : ℝ :=
  if 1 ≤ p.answerScore then
    getSpeedScore p.itemLength p.answerTime p.reactionTime p.charTime
      p.expectedSpeedMultiplier
  else 0

/-- Streak bonus binding of `getNewState`: awarded only for a completely
correct answer with at least one day of spacing. -/
def streakBonusOf (p : GetNewStateParams) : ℝ :=
  if 1 ≤ p.answerScore ∧ 1 ≤ p.daysSinceLastReview then
    getStreakBonus p.currentStreak p.streakBonusThreshold
  else 0

/-- Answer quality binding of `getNewState`. -/
def answerQualityOf (p : GetNewStateParams) : ℝ :=
  getAnswerQuality p.answerScore (speedScoreOf p) p.speedWeight (streakBonusOf p)
    p.bonusWeight

/-- Memory state update (`getNewState`). The thrown error on a non-positive
item length is modelled as `none`; the optional diagnostics callback is a
side channel that does not influence the returned state and is omitted.
The source's `let` bindings (coercion, streak, speed score, streak bonus,
answer quality) are the named definitions above. -/
def getNewState (p : GetNewStateParams) : Option NewState :=
  if p.itemLength ≤ 0 then none
  else if p.daysSinceLastReview ≤ 0.11 ∧
      (coercedStrength p ≠ DEFAULT_STRENGTH ∨ coercedDifficulty p ≠ DEFAULT_DIFFICULTY) then
    some ⟨coercedStrength p, coercedDifficulty p, p.currentStreak⟩
  else
    some ⟨getStrength (answerQualityOf p) (coercedStrength p) (coercedDifficulty p)
            p.daysSinceLastReview,
          getDifficulty (coercedDifficulty p) (answerQualityOf p) p.correctionWeight,
          if 1 ≤ p.answerScore then p.currentStreak + 1 else 0⟩

/-- Wrapper `getNewStateWithDefaults`: fixes the model constants and converts
`msSinceLastReview` to days. -/
def getNewStateWithDefaults (answerScore answerTime itemLength strength
    msSinceLastReview difficulty streak : ℝ) : Option NewState :=
  getNewState
    { answerScore := answerScore
      answerTime := answerTime
      itemLength := itemLength
      currentStrength := strength
      daysSinceLastReview := msSinceLastReview / MS_IN_DAY
      currentDifficulty := difficulty
      reactionTime := BASE_COGNITIVE_REACTION_TIME
      charTime := CHAR_REACTION_TIME
      speedWeight := ANSWER_SPEED_WEIGHT
      correctionWeight := DIFFICULTY_CORRECTION_WEIGHT
      expectedSpeedMultiplier := EXPECTED_SPEED_MULTIPLIER
      currentStreak := streak
      streakBonusThreshold := MIN_STREAK_THRESHOLD
      bonusWeight := STREAK_BONUS_WEIGHT }

/-- Memory tracking fields of a stored item (`MemoryTrackingFields`); the
`memoryLastReviewed` ISO string is modelled as its epoch timestamp in
milliseconds, and `word` stands for the display fields the scheduler carries
along unchanged. -/
structure TrackedItem where
  word : String
  memoryStrength : ℝ
  memoryDifficulty : ℝ
  memoryLastReviewed : ℝ

/-- Item paired with its transient priority (the `T & \x7b priority: number \x7d`
result of `calculatePriority`). -/
structure PrioritizedItem where
  item : TrackedItem
  priority : ℝ

/-- Priority of an item (`calculatePriority`): the forget probability at
`daysSinceLastReview = (now - lastReviewed) / MS_IN_DAY`, plus the
log-overdue signal when that probability reaches 1. `Date.now()` is passed
in as `now`. -/
def calculatePriority (now : ℝ) (it : TrackedItem) : PrioritizedItem :=
  ⟨it,
    if 1 ≤ getForgetProbability it.memoryStrength it.memoryDifficulty
        ((now - it.memoryLastReviewed) / MS_IN_DAY) then
      getForgetProbability it.memoryStrength it.memoryDifficulty
          ((now - it.memoryLastReviewed) / MS_IN_DAY) +
        getLogOverdueSignal it.memoryStrength it.memoryDifficulty
          ((now - it.memoryLastReviewed) / MS_IN_DAY)
    else
      getForgetProbability it.memoryStrength it.memoryDifficulty
        ((now - it.memoryLastReviewed) / MS_IN_DAY)⟩

/-- Descending-priority order used by `sortByPriority`'s comparator
`(a, b) => b.priority - a.priority`: `a` may precede `b` exactly when the
comparator is non-positive. -/
def priorityGE (a b : PrioritizedItem) : Prop :=
  b.priority ≤ a.priority

instance : DecidableRel priorityGE := fun a b => Real.decidableLE b.priority a.priority

instance : IsTotal PrioritizedItem priorityGE :=
  ⟨fun a b => le_total b.priority a.priority⟩

instance : IsTrans PrioritizedItem priorityGE :=
  ⟨fun _ _ _ hab hbc => le_trans hbc hab⟩

/-- Priority ordering (`sortByPriority`): attach priorities, then stable-sort
descending by priority. -/
def sortByPriority (now : ℝ) (items : List TrackedItem) : List PrioritizedItem :=
  List.insertionSort priorityGE (items.map (calculatePriority now))

/-!
Concrete review inputs used by witnesses and counterexamples. All of them
use the model constants of `getNewStateWithDefaults` for the weight fields.
-/

/-- Concrete review: one-hint answer on a seasoned item after 5 days. -/
def pInv : GetNewStateParams :=
  { answerScore := 0.5, answerTime := 3000, itemLength := 10, currentStrength := 3,
    daysSinceLastReview := 5, currentDifficulty := 4, reactionTime := 250, charTime := 20,
    speedWeight := 0.3, correctionWeight := 0.1, expectedSpeedMultiplier := 15,
    currentStreak := 2, streakBonusThreshold := 1, bonusWeight := 0.2 }

/-- Concrete review: correct answer on a seasoned item after 2 days. -/
def pLen : GetNewStateParams :=
  { answerScore := 1, answerTime := 2000, itemLength := 10, currentStrength := 4,
    daysSinceLastReview := 2, currentDifficulty := 3, reactionTime := 250, charTime := 20,
    speedWeight := 0.3, correctionWeight := 0.1, expectedSpeedMultiplier := 15,
    currentStreak := 1, streakBonusThreshold := 1, bonusWeight := 0.2 }

/-- Concrete review: same-day repeat of a seasoned item. -/
def pGuardW : GetNewStateParams :=
  { answerScore := 1.5, answerTime := 800, itemLength := 8, currentStrength := 6,
    daysSinceLastReview := 0.01, currentDifficulty := 2.5, reactionTime := 250, charTime := 20,
    speedWeight := 0.3, correctionWeight := 0.1, expectedSpeedMultiplier := 15,
    currentStreak := 3, streakBonusThreshold := 1, bonusWeight := 0.2 }

/-- Concrete review: fully correct same-day repeat of a seasoned item with a
running streak of 4. -/
def pCexStreak : GetNewStateParams :=
  { answerScore := 1, answerTime := 1000, itemLength := 10, currentStrength := 5,
    daysSinceLastReview := 0.05, currentDifficulty := 3, reactionTime := 250, charTime := 20,
    speedWeight := 0.3, correctionWeight := 0.1, expectedSpeedMultiplier := 15,
    currentStreak := 4, streakBonusThreshold := 1, bonusWeight := 0.2 }

/-- Concrete review: correct answer on a seasoned item after 3 days. -/
def pStreakW : GetNewStateParams :=
  { answerScore := 1, answerTime := 1500, itemLength := 12, currentStrength := 2,
    daysSinceLastReview := 3, currentDifficulty := 4, reactionTime := 250, charTime := 20,
    speedWeight := 0.3, correctionWeight := 0.1, expectedSpeedMultiplier := 15,
    currentStreak := 2, streakBonusThreshold := 1, bonusWeight := 0.2 }

/-- Concrete review: wrong answer, same-day repeat of a strength-5 item. -/
def pCexPenalty : GetNewStateParams :=
  { answerScore := 0, answerTime := 4000, itemLength := 10, currentStrength := 5,
    daysSinceLastReview := 0.05, currentDifficulty := 3, reactionTime := 250, charTime := 20,
    speedWeight := 0.3, correctionWeight := 0.1, expectedSpeedMultiplier := 15,
    currentStreak := 0, streakBonusThreshold := 1, bonusWeight := 0.2 }

/-- Concrete review: wrong answer on a strength-5 item after 2 days. -/
def pPenaltyW : GetNewStateParams :=
  { answerScore := 0, answerTime := 5000, itemLength := 10, currentStrength := 5,
    daysSinceLastReview := 2, currentDifficulty := 3, reactionTime := 250, charTime := 20,
    speedWeight := 0.3, correctionWeight := 0.1, expectedSpeedMultiplier := 15,
    currentStreak := 0, streakBonusThreshold := 1, bonusWeight := 0.2 }

/-- Concrete review: wrong same-day answer on an item in the pristine default
strength/difficulty but with streak 1 (a non-default state). -/
def pCexRapid : GetNewStateParams :=
  { answerScore := 0, answerTime := 4000, itemLength := 10, currentStrength := 1,
    daysSinceLastReview := 0.1, currentDifficulty := 2, reactionTime := 250, charTime := 20,
    speedWeight := 0.3, correctionWeight := 0.1, expectedSpeedMultiplier := 15,
    currentStreak := 1, streakBonusThreshold := 1, bonusWeight := 0.2 }

/-- State reached after the first call of the C2 counterexample. -/
def pCexRapid2 : GetNewStateParams :=
  { pCexRapid with currentStrength := 1, currentDifficulty := 2.1, currentStreak := 0 }

/-- Concrete review: same-day repeat of a clearly non-pristine item. -/
def pRapidW : GetNewStateParams :=
  { answerScore := 1, answerTime := 900, itemLength := 6, currentStrength := 7,
    daysSinceLastReview := 0.02, currentDifficulty := 3.5, reactionTime := 250, charTime := 20,
    speedWeight := 0.3, correctionWeight := 0.1, expectedSpeedMultiplier := 15,
    currentStreak := 5, streakBonusThreshold := 1, bonusWeight := 0.2 }

/-- Concrete item reviewed just now (the two-item scenario's item A). -/
def itemA : TrackedItem :=
  { word := "huis", memoryStrength := 2, memoryDifficulty := 3, memoryLastReviewed := 0 }

/-- Concrete item last reviewed 30 days before item A (the scenario's item B). -/
def itemB : TrackedItem :=
  { word := "fiets", memoryStrength := 2, memoryDifficulty := 3,
    memoryLastReviewed := -(30 * MS_IN_DAY) }

/-- Concrete stored item used by the priority-branch witness. -/
def itemPr : TrackedItem :=
  { word := "gracht", memoryStrength := 4, memoryDifficulty := 2,
    memoryLastReviewed := 1000 }

/-!
Helper lemmas shared by the claim theorems.
-/

/-- Helper: `safeDenom` of a positive number is positive. -/
lemma safeDenom_pos {d : ℝ} (hd : 0 < d) : 0 < safeDenom d := by
  unfold safeDenom jsSign
  split
  · rw [if_neg hd.ne', if_pos hd]
    norm_num
  · exact hd

/-- Helper: `Real.tanh` is nonnegative on nonnegative arguments. -/
lemma tanh_nonneg {x : ℝ} (hx : 0 ≤ x) : 0 ≤ Real.tanh x := by
  rw [Real.tanh_eq_sinh_div_cosh]
  exact div_nonneg (Real.sinh_nonneg_iff.2 hx) (Real.cosh_pos x).le

/-- Helper: the speed score is nonnegative for all inputs. -/
lemma getSpeedScore_nonneg (L aT rT cT k : ℝ) : 0 ≤ getSpeedScore L aT rT cT k := by
  unfold getSpeedScore
  split
  · exact le_refl 0
  · unfold boundedRescaleTanh
    have h1 : 0 ≤ clamp (k * (rT + cT * L) / aT - 1) (some MIN_SPEED_SCORE) none := by
      unfold clamp MIN_SPEED_SCORE
      exact le_max_left 0 _
    have h2 : 0 ≤ Real.tanh (0.5 * clamp (k * (rT + cT * L) / aT - 1)
        (some MIN_SPEED_SCORE) none) :=
      tanh_nonneg (by linarith)
    norm_num
    linarith

/-- Helper: `getStrength` never drops below `MIN_STRENGTH`. -/
lemma getStrength_ge_min (aq cs cd t : ℝ) : MIN_STRENGTH ≤ getStrength aq cs cd t := by
  unfold getStrength
  split
  · exact le_max_left _ _
  · exact le_max_left _ _

/-- Helper: `getDifficulty` always lands in `[MIN_DIFFICULTY, MAX_DIFFICULTY]`. -/
lemma getDifficulty_mem (cd aq cw : ℝ) :
    MIN_DIFFICULTY ≤ getDifficulty cd aq cw ∧ getDifficulty cd aq cw ≤ MAX_DIFFICULTY := by
  unfold getDifficulty clamp
  constructor
  · exact le_min (by norm_num [MIN_DIFFICULTY, MAX_DIFFICULTY]) (le_max_left _ _)
  · exact min_le_left _ _

/-- Helper: the cold-start coercion is the identity on positive strength. -/
lemma coercedStrength_of_pos {p : GetNewStateParams} (h : 0 < p.currentStrength) :
    coercedStrength p = p.currentStrength :=
  if_neg (not_le.2 h)

/-- Helper: the cold-start coercion is the identity on positive difficulty. -/
lemma coercedDifficulty_of_pos {p : GetNewStateParams} (h : 0 < p.currentDifficulty) :
    coercedDifficulty p = p.currentDifficulty :=
  if_neg (not_le.2 h)

/-- Helper: `getNewState` on the same-day-guard branch. -/
lemma getNewState_of_guard {p : GetNewStateParams} (hL : 0 < p.itemLength)
    (hg : sameDayGuard p) :
    getNewState p = some ⟨coercedStrength p, coercedDifficulty p, p.currentStreak⟩ := by
  unfold sameDayGuard at hg
  unfold getNewState
  rw [if_neg (not_le.2 hL), if_pos hg]

/-- Helper: `getNewState` on the full-update branch. -/
lemma getNewState_of_not_guard {p : GetNewStateParams} (hL : 0 < p.itemLength)
    (hg : ¬ sameDayGuard p) :
    getNewState p =
      some ⟨getStrength (answerQualityOf p) (coercedStrength p) (coercedDifficulty p)
              p.daysSinceLastReview,
            getDifficulty (coercedDifficulty p) (answerQualityOf p) p.correctionWeight,
            if 1 ≤ p.answerScore then p.currentStreak + 1 else 0⟩ := by
  unfold sameDayGuard at hg
  unfold getNewState
  rw [if_neg (not_le.2 hL), if_neg hg]

/-- Helper: a zero answer score forces the answer quality to 0, whatever the
weights, latency and spacing are. -/
lemma answerQualityOf_of_answerScore_zero {p : GetNewStateParams}
    (h : p.answerScore = 0) : answerQualityOf p = 0 := by
  unfold answerQualityOf getAnswerQuality speedScoreOf streakBonusOf
  rw [h]
  norm_num [clamp, MIN_ANSWER_QUALITY, MAX_ANSWER_QUALITY]

/-- Helper: the forget probability is strictly below 1 on all inputs. -/
lemma getForgetProbability_lt_one (S D t : ℝ) : getForgetProbability S D t < 1 := by
  unfold getForgetProbability
  have := Real.exp_pos (-(t * D / safeDenom S))
  linarith

/-- Helper: the coercions ignore the elapsed-days field. -/
lemma coercedStrength_set_days (p : GetNewStateParams) (t : ℝ) :
    coercedStrength { p with daysSinceLastReview := t } = coercedStrength p := rfl

/-- Helper: the difficulty coercion ignores the elapsed-days field. -/
lemma coercedDifficulty_set_days (p : GetNewStateParams) (t : ℝ) :
    coercedDifficulty { p with daysSinceLastReview := t } = coercedDifficulty p := rfl

/-- Helper: a coerced-pristine item answered fully correctly with positive
spacing, a nonnegative speed weight and a streak below the bonus threshold
gains strength strictly above 1 and increments the streak. -/
lemma getNewState_pristine_grow (p : GetNewStateParams) (hL : 0 < p.itemLength)
    (hS : p.currentStrength = 1) (hD : p.currentDifficulty = 2)
    (hscore : p.answerScore = 1) (ht : 0 < p.daysSinceLastReview)
    (hsw : 0 ≤ p.speedWeight) (hst : p.currentStreak < p.streakBonusThreshold) :
    ∃ r, getNewState p = some r ∧ 1 < r.newStrength ∧
      r.newStreak = p.currentStreak + 1 := by
  have hcs : coercedStrength p = 1 := by
    unfold coercedStrength
    rw [hS]
    norm_num
  have hcd : coercedDifficulty p = 2 := by
    unfold coercedDifficulty
    rw [hD]
    norm_num
  have hg : ¬ sameDayGuard p := by
    rintro ⟨-, h | h⟩
    · exact h (by rw [hcs]; norm_num [DEFAULT_STRENGTH, MIN_STRENGTH])
    · exact h (by rw [hcd]; norm_num [DEFAULT_DIFFICULTY])
  have hbonus : streakBonusOf p = 0 := by
    unfold streakBonusOf getStreakBonus
    simp [hst]
  have hss : 0 ≤ speedScoreOf p := by
    unfold speedScoreOf
    split
    · exact getSpeedScore_nonneg _ _ _ _ _
    · exact le_refl 0
  have haq : 1 ≤ answerQualityOf p := by
    unfold answerQualityOf getAnswerQuality
    rw [hscore, hbonus]
    simp only [clamp]
    have h1 : (1 : ℝ) ≤ 1 + p.speedWeight * speedScoreOf p + p.bonusWeight * 0 := by
      have := mul_nonneg hsw hss
      linarith
    exact le_min (by norm_num [MAX_ANSWER_QUALITY])
      (le_trans h1 (le_max_right _ _))
  have haq0 : answerQualityOf p ≠ 0 := by
    intro h
    rw [h] at haq
    norm_num at haq
  refine ⟨_, getNewState_of_not_guard hL hg, ?_, ?_⟩
  · show 1 < getStrength (answerQualityOf p) (coercedStrength p) (coercedDifficulty p)
      p.daysSinceLastReview
    rw [hcs, hcd]
    unfold getStrength
    rw [if_neg haq0]
    simp only [clamp, MIN_STRENGTH]
    have hpos : 0 < answerQualityOf p * (p.daysSinceLastReview / 2) :=
      mul_pos (by linarith) (by linarith)
    exact lt_max_iff.2 (Or.inr (by linarith))
  · show (if 1 ≤ p.answerScore then p.currentStreak + 1 else 0) = p.currentStreak + 1
    rw [hscore]
    norm_num

/-!
Claim theorems.
-/

/-- C1: for every input to `getNewState` that satisfies the data-model
invariants (current strength at least 1 or non-positive, current difficulty
in `[1, 10]` or non-positive, positive item length), the returned state has
`newDifficulty` in `[1, 10]` and `newStrength` at least 1, on every branch,
the same-day-repeat guard branch included. -/
theorem getNewState_clamp_invariants (p : GetNewStateParams)
    (hS : 1 ≤ p.currentStrength ∨ p.currentStrength ≤ 0)
    (hD : (1 ≤ p.currentDifficulty ∧ p.currentDifficulty ≤ 10) ∨ p.currentDifficulty ≤ 0)
    (hL : 0 < p.itemLength) :
    ∃ r, getNewState p = some r ∧
      1 ≤ r.newStrength ∧ 1 ≤ r.newDifficulty ∧ r.newDifficulty ≤ 10 := by
  have hcs : 1 ≤ coercedStrength p := by
    unfold coercedStrength
    split
    · norm_num [DEFAULT_STRENGTH, MIN_STRENGTH]
    · rename_i h
      exact hS.resolve_right h
  have hcd : 1 ≤ coercedDifficulty p ∧ coercedDifficulty p ≤ 10 := by
    unfold coercedDifficulty
    split
    · norm_num [DEFAULT_DIFFICULTY]
    · rename_i h
      exact hD.resolve_right h
  by_cases hg : sameDayGuard p
  · exact ⟨_, getNewState_of_guard hL hg, hcs, hcd.1, hcd.2⟩
  · refine ⟨_, getNewState_of_not_guard hL hg, ?_, ?_, ?_⟩
    · simpa [MIN_STRENGTH] using getStrength_ge_min (answerQualityOf p) (coercedStrength p)
        (coercedDifficulty p) p.daysSinceLastReview
    · simpa [MIN_DIFFICULTY] using (getDifficulty_mem (coercedDifficulty p) (answerQualityOf p)
        p.correctionWeight).1
    · simpa [MAX_DIFFICULTY] using (getDifficulty_mem (coercedDifficulty p) (answerQualityOf p)
        p.correctionWeight).2

/-- C1 witness: the clamp invariants at a concrete review. -/
theorem getNewState_clamp_invariants_witness :
    ∃ r, getNewState pInv = some r ∧
      1 ≤ r.newStrength ∧ 1 ≤ r.newDifficulty ∧ r.newDifficulty ≤ 10 :=
  getNewState_clamp_invariants pInv (by norm_num [pInv]) (by norm_num [pInv])
    (by norm_num [pInv])

/-- C8: `getNewState` fails exactly when its `itemLength` input is
non-positive, and on every positive item length it returns a state. The
function is pure, so a failing call produces and modifies no state; the
modelled error value is the propagated exception. -/
theorem getNewState_error_iff_nonpositive_length (p : GetNewStateParams) :
    (getNewState p = none ↔ p.itemLength ≤ 0) ∧
    (0 < p.itemLength → ∃ r, getNewState p = some r) := by
  have hsome : 0 < p.itemLength → ∃ r, getNewState p = some r := by
    intro hL
    by_cases hg : sameDayGuard p
    · exact ⟨_, getNewState_of_guard hL hg⟩
    · exact ⟨_, getNewState_of_not_guard hL hg⟩
  refine ⟨⟨?_, ?_⟩, hsome⟩
  · intro h
    by_contra hL
    obtain ⟨r, hr⟩ := hsome (not_le.1 hL)
    rw [hr] at h
    simp at h
  · intro h
    unfold getNewState
    rw [if_pos h]

/-- C8 witness: a positive item length yields a returned state. -/
theorem getNewState_error_iff_nonpositive_length_witness :
    0 < pLen.itemLength ∧ ∃ r, getNewState pLen = some r :=
  ⟨by norm_num [pLen],
   (getNewState_error_iff_nonpositive_length pLen).2 (by norm_num [pLen])⟩

/-- C10: the same-day-repeat guard fires exactly when
`daysSinceLastReview ≤ 0.11` and the coerced strength differs from 1 or the
coerced difficulty differs from 2; the streak input plays no role in the
test, and a coerced-pristine item receives the full state update for every
streak value, even on an immediate re-review. -/
theorem sameDayGuard_characterization (p : GetNewStateParams) (hL : 0 < p.itemLength) :
    (sameDayGuard p →
      getNewState p = some ⟨coercedStrength p, coercedDifficulty p, p.currentStreak⟩) ∧
    (¬ sameDayGuard p →
      getNewState p =
        some ⟨getStrength (answerQualityOf p) (coercedStrength p) (coercedDifficulty p)
                p.daysSinceLastReview,
              getDifficulty (coercedDifficulty p) (answerQualityOf p) p.correctionWeight,
              if 1 ≤ p.answerScore then p.currentStreak + 1 else 0⟩) ∧
    (∀ s : ℝ, sameDayGuard { p with currentStreak := s } ↔ sameDayGuard p) ∧
    (coercedStrength p = DEFAULT_STRENGTH → coercedDifficulty p = DEFAULT_DIFFICULTY →
      ¬ sameDayGuard p) := by
  refine ⟨fun hg => getNewState_of_guard hL hg, fun hg => getNewState_of_not_guard hL hg,
    fun s => Iff.rfl, ?_⟩
  rintro h1 h2 ⟨-, h | h⟩
  · exact h h1
  · exact h h2

/-- C10 witness: the guard characterization at a concrete same-day repeat. -/
theorem sameDayGuard_characterization_witness :
    (sameDayGuard pGuardW →
      getNewState pGuardW =
        some ⟨coercedStrength pGuardW, coercedDifficulty pGuardW, pGuardW.currentStreak⟩) ∧
    (¬ sameDayGuard pGuardW →
      getNewState pGuardW =
        some ⟨getStrength (answerQualityOf pGuardW) (coercedStrength pGuardW)
                (coercedDifficulty pGuardW) pGuardW.daysSinceLastReview,
              getDifficulty (coercedDifficulty pGuardW) (answerQualityOf pGuardW)
                pGuardW.correctionWeight,
              if 1 ≤ pGuardW.answerScore then pGuardW.currentStreak + 1 else 0⟩) ∧
    (∀ s : ℝ, sameDayGuard { pGuardW with currentStreak := s } ↔ sameDayGuard pGuardW) ∧
    (coercedStrength pGuardW = DEFAULT_STRENGTH →
      coercedDifficulty pGuardW = DEFAULT_DIFFICULTY → ¬ sameDayGuard pGuardW) :=
  sameDayGuard_characterization pGuardW (by norm_num [pGuardW])

/-- C3 counterexample: a fully correct same-day repeat of a seasoned item
keeps the input streak 4 instead of incrementing it to 5, so "answerScore
at least 1 always increments the streak, with no other exceptions" is false
on the guard branch. -/
theorem streak_increment_guard_counterexample :
    1 ≤ pCexStreak.answerScore ∧
    getNewState pCexStreak = some ⟨5, 3, 4⟩ ∧
    (4 : ℝ) ≠ pCexStreak.currentStreak + 1 := by
  have hg : sameDayGuard pCexStreak := by
    refine ⟨by norm_num [pCexStreak], Or.inl ?_⟩
    rw [coercedStrength_of_pos (by norm_num [pCexStreak])]
    norm_num [pCexStreak, DEFAULT_STRENGTH, MIN_STRENGTH]
  refine ⟨by norm_num [pCexStreak], ?_, by norm_num [pCexStreak]⟩
  rw [getNewState_of_guard (by norm_num [pCexStreak]) hg]
  norm_num [coercedStrength, coercedDifficulty, pCexStreak]

/-- C3 (amended): `answerScore < 1` resets the returned streak to 0 and
`answerScore ≥ 1` increments it by 1, except when the same-day-repeat guard
fires, in which case the returned streak equals the input streak
unchanged. -/
theorem getNewState_streak_rule (p : GetNewStateParams) (hL : 0 < p.itemLength) :
    ∃ r, getNewState p = some r ∧
      (sameDayGuard p → r.newStreak = p.currentStreak) ∧
      (¬ sameDayGuard p →
        r.newStreak = if 1 ≤ p.answerScore then p.currentStreak + 1 else 0) := by
  by_cases hg : sameDayGuard p
  · exact ⟨_, getNewState_of_guard hL hg, fun _ => rfl, fun h => absurd hg h⟩
  · exact ⟨_, getNewState_of_not_guard hL hg, fun h => absurd h hg, fun _ => rfl⟩

/-- C3 witness: the streak rule at a concrete correct answer with 3 days of
spacing (the guard does not fire, the streak increments). -/
theorem getNewState_streak_rule_witness :
    ∃ r, getNewState pStreakW = some r ∧
      (sameDayGuard pStreakW → r.newStreak = pStreakW.currentStreak) ∧
      (¬ sameDayGuard pStreakW →
        r.newStreak = if 1 ≤ pStreakW.answerScore then pStreakW.currentStreak + 1 else 0) :=
  getNewState_streak_rule pStreakW (by norm_num [pStreakW])

/-- C4 counterexample: a wrong answer on a same-day repeat of a strength-5
item returns strength 5 unchanged instead of the penalty
`clamp(5 * 0.3, ≥ 1) = 1.5`, so "`answerScore = NO` always yields the
penalty regardless of the other inputs" is false on the guard branch. -/
theorem no_answer_strength_guard_counterexample :
    pCexPenalty.answerScore = AnswerScore.NO ∧
    getNewState pCexPenalty = some ⟨5, 3, 0⟩ ∧
    (5 : ℝ) ≠ clamp (pCexPenalty.currentStrength * 0.3) (some MIN_STRENGTH) none := by
  have hg : sameDayGuard pCexPenalty := by
    refine ⟨by norm_num [pCexPenalty], Or.inl ?_⟩
    rw [coercedStrength_of_pos (by norm_num [pCexPenalty])]
    norm_num [pCexPenalty, DEFAULT_STRENGTH, MIN_STRENGTH]
  refine ⟨by norm_num [pCexPenalty, AnswerScore.NO], ?_, ?_⟩
  · rw [getNewState_of_guard (by norm_num [pCexPenalty]) hg]
    norm_num [coercedStrength, coercedDifficulty, pCexPenalty]
  · norm_num [clamp, pCexPenalty, MIN_STRENGTH, max_def]

/-- C4 (amended): whenever the same-day-repeat guard does not fire (and the
item length is positive), `answerScore = NO` yields
`newStrength = clamp(coercedStrength * 0.3, ≥ 1)` regardless of the answer
latency and of the remaining inputs. -/
theorem no_answer_strength_penalty (p : GetNewStateParams) (hL : 0 < p.itemLength)
    (hns : p.answerScore = AnswerScore.NO) (hg : ¬ sameDayGuard p) :
    ∃ r, getNewState p = some r ∧
      r.newStrength = clamp (coercedStrength p * 0.3) (some MIN_STRENGTH) none := by
  refine ⟨_, getNewState_of_not_guard hL hg, ?_⟩
  have h0 : answerQualityOf p = 0 :=
    answerQualityOf_of_answerScore_zero (by simpa [AnswerScore.NO] using hns)
  show getStrength (answerQualityOf p) (coercedStrength p) (coercedDifficulty p)
      p.daysSinceLastReview = _
  rw [h0]
  unfold getStrength
  rw [if_pos rfl]

/-- C4 witness: the penalty at a concrete wrong answer after 2 days. -/
theorem no_answer_strength_penalty_witness :
    ∃ r, getNewState pPenaltyW = some r ∧
      r.newStrength = clamp (coercedStrength pPenaltyW * 0.3) (some MIN_STRENGTH) none :=
  no_answer_strength_penalty pPenaltyW (by norm_num [pPenaltyW])
    (by norm_num [pPenaltyW, AnswerScore.NO])
    (fun hg => absurd hg.1 (by norm_num [pPenaltyW]))

/-- C2 counterexample: the state (strength 1, difficulty 2, streak 1) is
non-default yet coerced-pristine, so a wrong same-day answer updates it to
(1, 2.1, 0); the immediate second call then hits the guard and keeps
(1, 2.1, 0), which differs from the original input in difficulty and
streak. Two rapid calls therefore do drift on this non-default state. -/
theorem rapid_repeat_drift_counterexample :
    (pCexRapid.currentStrength = 1 ∧ pCexRapid.currentDifficulty = 2 ∧
      pCexRapid.currentStreak ≠ 0) ∧
    pCexRapid.daysSinceLastReview ≤ 0.11 ∧
    pCexRapid2.daysSinceLastReview ≤ 0.11 ∧
    getNewState pCexRapid = some ⟨1, 2.1, 0⟩ ∧
    getNewState pCexRapid2 = some ⟨1, 2.1, 0⟩ ∧
    ¬ ((2.1 : ℝ) = pCexRapid.currentDifficulty ∧ (0 : ℝ) = pCexRapid.currentStreak) := by
  refine ⟨⟨rfl, rfl, by norm_num [pCexRapid]⟩, by norm_num [pCexRapid],
    by norm_num [pCexRapid2, pCexRapid], ?_, ?_, by norm_num [pCexRapid]⟩
  · have hg : ¬ sameDayGuard pCexRapid := by
      rintro ⟨-, h | h⟩
      · exact h (by rw [coercedStrength_of_pos (by norm_num [pCexRapid])]
                    norm_num [pCexRapid, DEFAULT_STRENGTH, MIN_STRENGTH])
      · exact h (by rw [coercedDifficulty_of_pos (by norm_num [pCexRapid])]
                    norm_num [pCexRapid, DEFAULT_DIFFICULTY])
    rw [getNewState_of_not_guard (by norm_num [pCexRapid]) hg]
    have h0 : answerQualityOf pCexRapid = 0 :=
      answerQualityOf_of_answerScore_zero (by norm_num [pCexRapid])
    rw [h0]
    norm_num [getStrength, getDifficulty, clamp, coercedStrength, coercedDifficulty,
      pCexRapid, MIN_STRENGTH, MIN_DIFFICULTY, MAX_DIFFICULTY, max_def, min_def]
  · have hg2 : sameDayGuard pCexRapid2 := by
      refine ⟨by norm_num [pCexRapid2, pCexRapid], Or.inr ?_⟩
      rw [coercedDifficulty_of_pos (by norm_num [pCexRapid2, pCexRapid])]
      norm_num [pCexRapid2, pCexRapid, DEFAULT_DIFFICULTY]
    rw [getNewState_of_guard (by norm_num [pCexRapid2, pCexRapid]) hg2]
    norm_num [coercedStrength, coercedDifficulty, pCexRapid2, pCexRapid]

/-- C2 (amended): for every state whose positive strength differs from 1 or
whose positive difficulty differs from 2 (the guard's notion of
non-pristine, which ignores the streak), a call with
`daysSinceLastReview ≤ 0.11` returns the input strength/difficulty/streak
unchanged, and so does an immediately repeated second call: two successive
rapid calls produce no drift. -/
theorem rapid_repeat_noop_nonpristine (p : GetNewStateParams) (t₂ : ℝ)
    (hL : 0 < p.itemLength) (hS : 0 < p.currentStrength) (hD : 0 < p.currentDifficulty)
    (hnd : p.currentStrength ≠ 1 ∨ p.currentDifficulty ≠ 2)
    (ht₁ : p.daysSinceLastReview ≤ 0.11) (ht₂ : t₂ ≤ 0.11) :
    getNewState p = some ⟨p.currentStrength, p.currentDifficulty, p.currentStreak⟩ ∧
    getNewState { p with daysSinceLastReview := t₂ } =
      some ⟨p.currentStrength, p.currentDifficulty, p.currentStreak⟩ := by
  have hcs := coercedStrength_of_pos hS
  have hcd := coercedDifficulty_of_pos hD
  have hnd' : coercedStrength p ≠ DEFAULT_STRENGTH ∨
      coercedDifficulty p ≠ DEFAULT_DIFFICULTY := by
    rw [hcs, hcd]
    simpa [DEFAULT_STRENGTH, MIN_STRENGTH, DEFAULT_DIFFICULTY] using hnd
  constructor
  · rw [getNewState_of_guard hL ⟨ht₁, hnd'⟩, hcs, hcd]
  · rw [getNewState_of_guard (p := { p with daysSinceLastReview := t₂ }) hL ⟨ht₂, hnd'⟩,
      coercedStrength_set_days, coercedDifficulty_set_days, hcs, hcd]

/-- C2 witness: the no-drift theorem at a concrete strength-7 item repeated
twice within the same-day window. -/
theorem rapid_repeat_noop_nonpristine_witness :
    getNewState pRapidW =
      some ⟨pRapidW.currentStrength, pRapidW.currentDifficulty, pRapidW.currentStreak⟩ ∧
    getNewState { pRapidW with daysSinceLastReview := 0.05 } =
      some ⟨pRapidW.currentStrength, pRapidW.currentDifficulty, pRapidW.currentStreak⟩ :=
  rapid_repeat_noop_nonpristine pRapidW 0.05 (by norm_num [pRapidW])
    (by norm_num [pRapidW]) (by norm_num [pRapidW]) (Or.inl (by norm_num [pRapidW]))
    (by norm_num [pRapidW]) (by norm_num)

/-- C9: a pristine new item (strength 1, difficulty 2, streak 0) reviewed
immediately after creation (any strictly positive elapsed time, however
small) with `answerScore = KNOW` does not hit the same-day guard and comes
back with `newStrength` strictly above 1 and `newStreak = 1`; the result
holds for every answer latency, fast ones included. -/
theorem fresh_item_first_review_grows (answerTime itemLength ms : ℝ)
    (hL : 0 < itemLength) (hms : 0 < ms) :
    ∃ r, getNewStateWithDefaults AnswerScore.KNOW answerTime itemLength 1 ms 2 0 = some r ∧
      1 < r.newStrength ∧ r.newStreak = 1 := by
  obtain ⟨r, hr, h1, h2⟩ := getNewState_pristine_grow
    { answerScore := AnswerScore.KNOW, answerTime := answerTime, itemLength := itemLength,
      currentStrength := 1, daysSinceLastReview := ms / MS_IN_DAY, currentDifficulty := 2,
      reactionTime := BASE_COGNITIVE_REACTION_TIME, charTime := CHAR_REACTION_TIME,
      speedWeight := ANSWER_SPEED_WEIGHT, correctionWeight := DIFFICULTY_CORRECTION_WEIGHT,
      expectedSpeedMultiplier := EXPECTED_SPEED_MULTIPLIER, currentStreak := 0,
      streakBonusThreshold := MIN_STREAK_THRESHOLD, bonusWeight := STREAK_BONUS_WEIGHT }
    hL rfl rfl (by norm_num [AnswerScore.KNOW])
    (div_pos hms (by norm_num [MS_IN_DAY]))
    (by norm_num [ANSWER_SPEED_WEIGHT])
    (by norm_num [MIN_STREAK_THRESHOLD])
  exact ⟨r, hr, h1, by rw [h2]; norm_num⟩

/-- C9 witness: the fresh-item scenario one minute after creation with a
one-second answer. -/
theorem fresh_item_first_review_grows_witness :
    ∃ r, getNewStateWithDefaults AnswerScore.KNOW 1000 10 1 60000 2 0 = some r ∧
      1 < r.newStrength ∧ r.newStreak = 1 :=
  fresh_item_first_review_grows 1000 10 60000 (by norm_num) (by norm_num)

/-- C5: for positive strength and difficulty and nonnegative elapsed days,
the forget probability lies in `[0, 1)`; consequently the `priority >= 1`
log-overdue branch of `calculatePriority` is never taken for items with
positive strength and difficulty — the computed priority is the bare forget
probability and stays strictly below 1. -/
theorem getForgetProbability_range_and_priority_branch (S D t now : ℝ)
    (it : TrackedItem) (hS : 0 < S) (hD : 0 < D) (ht : 0 ≤ t)
    (_hiS : 0 < it.memoryStrength) (_hiD : 0 < it.memoryDifficulty) :
    (0 ≤ getForgetProbability S D t ∧ getForgetProbability S D t < 1) ∧
    ((calculatePriority now it).priority =
        getForgetProbability it.memoryStrength it.memoryDifficulty
          ((now - it.memoryLastReviewed) / MS_IN_DAY) ∧
      (calculatePriority now it).priority < 1) := by
  refine ⟨⟨?_, getForgetProbability_lt_one S D t⟩, ?_, ?_⟩
  · unfold getForgetProbability
    have hsd := safeDenom_pos hS
    have hx : 0 ≤ t * D / safeDenom S := div_nonneg (mul_nonneg ht hD.le) hsd.le
    have := Real.exp_le_one_iff.2 (neg_nonpos.2 hx)
    linarith
  · unfold calculatePriority
    rw [if_neg (not_le.2 (getForgetProbability_lt_one _ _ _))]
  · unfold calculatePriority
    rw [if_neg (not_le.2 (getForgetProbability_lt_one _ _ _))]
    exact getForgetProbability_lt_one _ _ _

/-- C5 witness: the range and the untaken branch at a concrete item. -/
theorem getForgetProbability_range_and_priority_branch_witness :
    ((0 : ℝ) ≤ getForgetProbability 4 2 3 ∧ getForgetProbability 4 2 3 < 1) ∧
    ((calculatePriority 100000 itemPr).priority =
        getForgetProbability itemPr.memoryStrength itemPr.memoryDifficulty
          ((100000 - itemPr.memoryLastReviewed) / MS_IN_DAY) ∧
      (calculatePriority 100000 itemPr).priority < 1) :=
  getForgetProbability_range_and_priority_branch 4 2 3 100000 itemPr (by norm_num)
    (by norm_num) (by norm_num) (by norm_num [itemPr]) (by norm_num [itemPr])

/-- C6: for fixed positive strength and difficulty, the forget probability
is strictly increasing in the elapsed days. -/
theorem getForgetProbability_strictMono (S D t₁ t₂ : ℝ) (hS : 0 < S) (hD : 0 < D)
    (h : t₁ < t₂) :
    getForgetProbability S D t₁ < getForgetProbability S D t₂ := by
  unfold getForgetProbability
  have hsd := safeDenom_pos hS
  have hmul : t₁ * D < t₂ * D := (mul_lt_mul_right hD).2 h
  have hdiv : t₁ * D / safeDenom S < t₂ * D / safeDenom S :=
    (div_lt_div_iff_of_pos_right hsd).2 hmul
  have hexp : Real.exp (-(t₂ * D / safeDenom S)) < Real.exp (-(t₁ * D / safeDenom S)) :=
    Real.exp_lt_exp.2 (by linarith)
  linarith

/-- C6 witness: strict growth between day 1 and day 7 at strength 2,
difficulty 3. -/
theorem getForgetProbability_strictMono_witness :
    getForgetProbability 2 3 1 < getForgetProbability 2 3 7 :=
  getForgetProbability_strictMono 2 3 1 7 (by norm_num) (by norm_num) (by norm_num)

/-- C7: for every list of items the output of `sortByPriority` is sorted in
descending order of the computed priorities; in particular, for a two-item
set with equal positive strength and difficulty where item A was last
reviewed now and item B 30 days ago, B comes first. -/
theorem sortByPriority_sorted_desc (now : ℝ) (items : List TrackedItem) :
    List.Sorted priorityGE (sortByPriority now items) ∧
    ∀ A B : TrackedItem,
      A.memoryLastReviewed = now →
      B.memoryLastReviewed = now - 30 * MS_IN_DAY →
      0 < A.memoryStrength → 0 < A.memoryDifficulty →
      B.memoryStrength = A.memoryStrength →
      B.memoryDifficulty = A.memoryDifficulty →
      (sortByPriority now [A, B]).map PrioritizedItem.item = [B, A] := by
  constructor
  · exact List.sorted_insertionSort priorityGE _
  · intro A B hA hB hS hD hBS hBD
    have hBSpos : 0 < B.memoryStrength := by rw [hBS]; exact hS
    have hBDpos : 0 < B.memoryDifficulty := by rw [hBD]; exact hD
    have hpA : (calculatePriority now A).priority = 0 := by
      unfold calculatePriority
      rw [hA]
      norm_num [getForgetProbability]
    have htB : (now - B.memoryLastReviewed) / MS_IN_DAY = 30 := by
      rw [hB]
      have h30 : now - (now - 30 * MS_IN_DAY) = 30 * MS_IN_DAY := by ring
      rw [h30, mul_div_assoc, div_self (by norm_num [MS_IN_DAY] : MS_IN_DAY ≠ 0), mul_one]
    have hFB0 : 0 < getForgetProbability B.memoryStrength B.memoryDifficulty 30 := by
      unfold getForgetProbability
      have hx : 0 < 30 * B.memoryDifficulty / safeDenom B.memoryStrength :=
        div_pos (by linarith) (safeDenom_pos hBSpos)
      have := Real.exp_lt_one_iff.2 (neg_lt_zero.2 hx)
      linarith
    have hpB : (calculatePriority now B).priority =
        getForgetProbability B.memoryStrength B.memoryDifficulty 30 := by
      unfold calculatePriority
      rw [htB, if_neg (not_le.2 (getForgetProbability_lt_one _ _ _))]
    have hr : ¬ priorityGE (calculatePriority now A) (calculatePriority now B) := by
      unfold priorityGE
      rw [hpA, hpB]
      exact not_le.2 hFB0
    unfold sortByPriority
    simp only [List.map, List.insertionSort, List.orderedInsert]
    rw [if_neg hr]
    simp [calculatePriority]

/-- C7 witness: the two-item scenario with concrete items, one reviewed at
the epoch, the other 30 days earlier. -/
theorem sortByPriority_sorted_desc_witness :
    List.Sorted priorityGE (sortByPriority 0 [itemA, itemB]) ∧
    (sortByPriority 0 [itemA, itemB]).map PrioritizedItem.item = [itemB, itemA] :=
  ⟨(sortByPriority_sorted_desc 0 [itemA, itemB]).1,
   (sortByPriority_sorted_desc 0 [itemA, itemB]).2 itemA itemB (by norm_num [itemA])
     (by norm_num [itemB]) (by norm_num [itemA]) (by norm_num [itemA])
     (by norm_num [itemB, itemA]) (by norm_num [itemB, itemA])⟩

end

end Vocab
